/-
Verification of the statistics / machine-learning recipe notebooks:
shallow embeddings (over ℚ) of the library calls the notebooks make
(numpy.cov, numpy.corrcoef, scipy.stats.spearmanr, scipy.stats.kendalltau,
R's saveRDS/readRDS) and of the scripts that drive them, together with
theorems settling the specification's claims about them.
-/
import Mathlib

namespace AppliedML

/-! ## Embedding of the NumPy covariance / correlation calls

The notebook `A_Gentle_Introduction_to_Expected_Value_Variance_Covariance_with_NumPy`
calls `numpy.cov(x, y)` and `numpy.corrcoef(x, y)` on two equal-length
1-D arrays.  `numpy.cov` stacks the two arrays as the rows of a 2×n matrix,
subtracts each row's mean, and divides the matrix of pairwise dot products
of the centered rows by n - 1 (the default `ddof=1` sample normalization).
We embed the arithmetic over ℚ (the notebook's inputs are small integers,
and the recorded outputs are exact decimals). -/

/-- Arithmetic mean of a list of rationals (`numpy.mean`); `0` on `[]`
because division by zero is `0` in ℚ, a case no notebook input hits. -/
def mean (x : List ℚ) : ℚ := x.sum / (x.length : ℚ)

/-- Subtract the mean from every entry (the row-centering step of `numpy.cov`). -/
def centered (x : List ℚ) : List ℚ := x.map (fun a => a - mean x)

/-- Dot product of two lists (`numpy`'s row-by-row product-and-sum). -/
def dot (a b : List ℚ) : ℚ := (List.zipWith (fun p q => p * q) a b).sum

/-- A 2×2 matrix of rationals, the shape `numpy.cov(x, y)` and
`numpy.corrcoef(x, y)` return for two 1-D inputs. -/
structure Matrix2 where
  m00 : ℚ
  m01 : ℚ
  m10 : ℚ
  m11 : ℚ
deriving DecidableEq, Repr

/-- `numpy.cov(x, y)` for two 1-D arrays: entry (i,j) is the dot product of
the centered rows i and j divided by n - 1, where n is the common length
(numpy takes it from the stacked matrix's column count). -/
def cov (x y : List ℚ) : Matrix2 :=
  let n : ℚ := (x.length : ℚ)
  { m00 := dot (centered x) (centered x) / (n - 1)
    m01 := dot (centered x) (centered y) / (n - 1)
    m10 := dot (centered y) (centered x) / (n - 1)
    m11 := dot (centered y) (centered y) / (n - 1) }

/-- Textbook pairwise sample covariance, written as the notebook's markdown
states it: the sum over k of (x_k - mean x)(y_k - mean y), divided by n - 1. -/
def sampleCov (x y : List ℚ) : ℚ :=
  (List.zipWith (fun a b => (a - mean x) * (b - mean y)) x y).sum / ((x.length : ℚ) - 1)

/-- Textbook sample variance: the sample covariance of a list with itself. -/
def sampleVar (x : List ℚ) : ℚ := sampleCov x x

/-- `numpy.corrcoef(x, y)`: the covariance matrix with entry (i,j) divided
by √(c_ii)·√(c_jj).  The product of square roots is rendered as `Rat.sqrt`
of the product c_ii·c_jj (equal to √(c_ii)·√(c_jj) for the nonnegative
diagonal entries, and exact whenever the product is a rational square,
which it is on every input the notebook uses). -/
def corrcoef (x y : List ℚ) : Matrix2 :=
  let c := cov x y
  { m00 := c.m00 / Rat.sqrt (c.m00 * c.m00)
    m01 := c.m01 / Rat.sqrt (c.m00 * c.m11)
    m10 := c.m10 / Rat.sqrt (c.m11 * c.m00)
    m11 := c.m11 / Rat.sqrt (c.m11 * c.m11) }

/-- The vector `x = array([1,2,3,4,5,6,7,8,9])` from the notebook. -/
def xVec : List ℚ := [1, 2, 3, 4, 5, 6, 7, 8, 9]

/-- The vector `y = array([9,8,7,6,5,4,3,2,1])` from the notebook. -/
def yVec : List ℚ := [9, 8, 7, 6, 5, 4, 3, 2, 1]

/-! ## Embedding of the SciPy rank-correlation calls

The rank-correlation notebook calls `scipy.stats.spearmanr(data1, data2)`
and `scipy.stats.kendalltau(data1, data2)`. -/

/-- `scipy.stats.rankdata` with the default `average` method, applied by
`spearmanr` to each sample: the rank of a value v is the number of entries
strictly below v plus the average position among the entries equal to v,
with ranks starting at 1. -/
def rankdata (x : List ℚ) : List ℚ :=
  x.map (fun v =>
    ((x.countP (fun a => decide (a < v)) : ℕ) : ℚ)
      + (((x.countP (fun a => decide (a = v)) : ℕ) : ℚ) + 1) / 2)

/-- `scipy.stats.spearmanr` on two 1-D samples: rank both samples, then
take the off-diagonal entry of the rank covariance matrix normalized by
the square root of the product of the diagonal entries (the correlation
of the ranks, as scipy computes it from the covariance of the ranks). -/
def spearmanr (x y : List ℚ) : ℚ :=
  let c := cov (rankdata x) (rankdata y)
  c.m01 / Rat.sqrt (c.m00 * c.m11)

/-- Pearson's correlation coefficient, as the spec's words define it:
the sample covariance of the two samples normalized by the product of
their standard deviations (the square root of the product of the sample
variances). -/
def pearsonr (x y : List ℚ) : ℚ :=
  sampleCov x y / Rat.sqrt (sampleVar x * sampleVar y)

/-- All ordered pairs of distinct positions of a list, each unordered pair
counted once (the pair loop of Kendall's tau). -/
def offDiagPairs {α : Type} : List α → List (α × α)
  | [] => []
  | a :: rest => rest.map (fun b => (a, b)) ++ offDiagPairs rest

/-- `scipy.stats.kendalltau` (the default tau-b): over all pairs of
observations, count concordant pairs nc, discordant pairs nd, pairs tied
only in x (tx) and pairs tied only in y (ty), and return
(nc - nd) / √((nc + nd + tx)·(nc + nd + ty)). -/
def kendalltau (x y : List ℚ) : ℚ :=
  let pp := offDiagPairs (x.zip y)
  let nc : ℚ := ((pp.countP (fun q =>
    decide ((q.1.1 < q.2.1 ∧ q.1.2 < q.2.2) ∨ (q.2.1 < q.1.1 ∧ q.2.2 < q.1.2))) : ℕ) : ℚ)
  let nd : ℚ := ((pp.countP (fun q =>
    decide ((q.1.1 < q.2.1 ∧ q.2.2 < q.1.2) ∨ (q.2.1 < q.1.1 ∧ q.1.2 < q.2.2))) : ℕ) : ℚ)
  let tx : ℚ := ((pp.countP (fun q =>
    decide (q.1.1 = q.2.1 ∧ q.1.2 ≠ q.2.2)) : ℕ) : ℚ)
  let ty : ℚ := ((pp.countP (fun q =>
    decide (q.1.2 = q.2.2 ∧ q.1.1 ≠ q.2.1)) : ℕ) : ℚ)
  (nc - nd) / Rat.sqrt ((nc + nd + tx) * (nc + nd + ty))

/-! ## The rank-correlation notebook's scripts and their error behavior

The notebook's complete examples pass the two samples straight into the
library call and print the result; there is no `try`/`except` and no input
validation of the notebook's own, so a library error terminates the
script.  We embed a fallible library call as `Except`, with the error the
library raises for samples of mismatched lengths. -/

/-- An error raised inside the external library (scipy raises `ValueError`
when the two samples passed to a correlation function cannot be aligned);
the field records which library function raised it. -/
inductive LibError where
  | mismatchedLengths (func : String)
deriving DecidableEq, Repr

/-- The `spearmanr` library call as the script sees it: a result for
well-formed input, the library's own error for mismatched lengths. -/
def spearmanrCall (x y : List ℚ) : Except LibError ℚ :=
  if x.length = y.length then Except.ok (spearmanr x y)
  else Except.error (LibError.mismatchedLengths "spearmanr")

/-- The `kendalltau` library call as the script sees it. -/
def kendalltauCall (x y : List ℚ) : Except LibError ℚ :=
  if x.length = y.length then Except.ok (kendalltau x y)
  else Except.error (LibError.mismatchedLengths "kendalltau")

/-- The Spearman complete example after data preparation: the library call
followed by the print of the coefficient, with no handler in between, so
the script's outcome is the call's outcome. -/
def runSpearmanExample (d1 d2 : List ℚ) : Except LibError String := do
  let coef ← spearmanrCall d1 d2
  pure ("Spearmans correlation coefficient: " ++ reprStr coef)

/-- The Kendall complete example after data preparation. -/
def runKendallExample (d1 d2 : List ℚ) : Except LibError String := do
  let coef ← kendalltauCall d1 d2
  pure ("Kendall correlation coefficient: " ++ reprStr coef)

/-! ## The seeded test-dataset construction

Both complete examples run `seed(1)`, then
`data1 = rand(1000) * 20` and `data2 = data1 + (rand(1000) * 10)`.
The generator is abstracted as a deterministic state machine: `seedWith`
maps a seed to a generator state, `next` yields one uniform draw and the
successor state. -/

/-- A deterministic pseudo-random generator in the style of numpy's global
RandomState: re-seedable, with one ℚ draw per step. -/
structure RNG (S : Type) where
  seedWith : ℕ → S
  next : S → ℚ × S

/-- `rand(n)`: n successive draws, threading the generator state. -/
def draws {S : Type} (g : RNG S) : ℕ → S → List ℚ × S
  | 0, s => ([], s)
  | n + 1, s =>
    let (v, s1) := g.next s
    let (rest, s2) := draws g n s1
    (v :: rest, s2)

/-- `data1 = rand(1000) * 20`: scale the uniform draws by 20. -/
def testData1 (u : List ℚ) : List ℚ := u.map (fun v => v * 20)

/-- `data2 = data1 + (rand(1000) * 10)`: add 10 times a fresh draw to each
entry of data1, pointwise. -/
def testData2 (d1 u : List ℚ) : List ℚ :=
  List.zipWith (fun a b => a + b * 10) d1 u

/-- The data-preparation prefix both complete examples share: `seed(1)`
(which replaces whatever generator state s0 was live before), then the two
blocks of 1000 draws, then the arithmetic on them. -/
def exampleData {S : Type} (g : RNG S) (_s0 : S) : List ℚ × List ℚ :=
  let s1 := g.seedWith 1
  let u1 := (draws g 1000 s1).1
  let s2 := (draws g 1000 s1).2
  let u2 := (draws g 1000 s2).1
  let d1 := testData1 u1
  (d1, testData2 d1 u2)

/-- The Spearman complete example's computed coefficient as a function of
the generator and the generator state preceding the script. -/
def spearmanExampleCoef {S : Type} (g : RNG S) (s0 : S) : ℚ :=
  spearmanr (exampleData g s0).1 (exampleData g s0).2

/-- The Kendall complete example's computed coefficient. -/
def kendallExampleCoef {S : Type} (g : RNG S) (s0 : S) : ℚ :=
  kendalltau (exampleData g s0).1 (exampleData g s0).2

/-! ## The R save/finalize script

`save_and_finalize_ml_model_in_R.Rmd`, third chunk: fit a random forest,
`saveRDS(final_model, "./final_model.rds")`, later
`super_model <- readRDS("./final_model.rds")`, then predict on
`validation[,1:60]`.  The filesystem is a map from paths to stored
objects; `saveRDS`/`readRDS` are R-runtime serialization, which is a
faithful round trip, so storing is writing the object at the path. -/

/-- The filesystem as the scripts see it: a map from path to the object
whose serialization the file holds (`none` = no file). -/
structure FileSys (α : Type) where
  disk : String → Option α

/-- The empty filesystem. -/
def emptyFS {α : Type} : FileSys α := ⟨fun _ => none⟩

/-- `saveRDS(obj, path)`: serialize obj to the file at path. -/
def saveRDS {α : Type} (fs : FileSys α) (path : String) (a : α) : FileSys α :=
  ⟨fun p => if p = path then some a else fs.disk p⟩

/-- `readRDS(path)`: deserialize the object stored at path, if any. -/
def readRDS {α : Type} (fs : FileSys α) (path : String) : Option α :=
  fs.disk path

/-- The observable outcome of the save/load chunk: the filesystem after
the run, the loaded `super_model`, and `final_predictions`. -/
structure SaveLoadResult (Model Pred : Type) where
  fs : FileSys Model
  superModel : Option Model
  finalPredictions : Option Pred

/-- The save/load chunk of the Rmd, abstracted over the model type, the
library's `predict` and the fitted `final_model` (fitting is a
randomForest library call): save the model to `./final_model.rds`, load
it back as `super_model`, predict on the validation data. -/
def saveLoadChunk {Model Data Pred : Type} (predict : Model → Data → Pred)
    (finalModel : Model) (validation : Data) (fs0 : FileSys Model) :
    SaveLoadResult Model Pred :=
  let fs1 := saveRDS fs0 "./final_model.rds" finalModel
  let superModel := readRDS fs1 "./final_model.rds"
  let finalPredictions := superModel.map (fun m => predict m validation)
  ⟨fs1, superModel, finalPredictions⟩

/-! ## Call traces of the R chunks

For the claims about what the scripts do and do not contain (parallelism
configuration, on-disk writes), each top-level call of the three R chunks
is transliterated into a constructor; every constructor is a call into an
external library (caret, mlbench, randomForest, doMC, base R). -/

/-- One top-level call of an R chunk. -/
inductive RCall where
  | libraryLoad (package : String)
  | registerDoMC (cores : ℕ)
  | dataLoad (dataset : String)
  | setSeed (n : ℕ)
  | createDataPartition
  | trainControl
  | trainModel (method : String)
  | randomForestFit (mtry ntree : ℕ)
  | predictCall
  | confusionMatrixCall
  | printCall
  | saveRDSCall (path : String)
  | readRDSCall (path : String)
deriving DecidableEq, Repr

/-- Chunk 1 of the Rmd: LDA predictions on the Pima diabetes data. -/
def rChunk1 : List RCall :=
  [.libraryLoad "caret", .libraryLoad "mlbench", .dataLoad "PimaIndiansDiabetes",
   .setSeed 9, .createDataPartition, .setSeed 9, .trainControl, .trainModel "lda",
   .printCall, .printCall, .setSeed 9, .predictCall, .confusionMatrixCall]

/-- Chunk 2 of the Rmd: standalone random forest on the Sonar data. -/
def rChunk2 : List RCall :=
  [.libraryLoad "caret", .libraryLoad "mlbench", .libraryLoad "randomForest",
   .dataLoad "Sonar", .setSeed 7, .createDataPartition, .setSeed 7, .trainControl,
   .trainModel "rf", .printCall, .printCall, .setSeed 7, .randomForestFit 2 2000,
   .predictCall, .confusionMatrixCall]

/-- Chunk 3 of the Rmd: save and load the final random forest. -/
def rChunk3 : List RCall :=
  [.libraryLoad "caret", .libraryLoad "mlbench", .libraryLoad "randomForest",
   .libraryLoad "doMC", .registerDoMC 8, .dataLoad "Sonar", .setSeed 7,
   .createDataPartition, .setSeed 7, .randomForestFit 2 2000,
   .saveRDSCall "./final_model.rds", .readRDSCall "./final_model.rds",
   .printCall, .predictCall, .confusionMatrixCall]

/-- All three chunks of the Rmd, in order. -/
def rChunks : List (List RCall) := [rChunk1, rChunk2, rChunk3]

/-- A call that configures parallel execution (registering the doMC
multicore backend with a core count). -/
def isParallelConfig : RCall → Bool
  | .registerDoMC _ => true
  | _ => false

/-- The paths a chunk writes to disk (its `saveRDS` calls). -/
def writesOf (calls : List RCall) : List String :=
  calls.filterMap (fun c =>
    match c with
    | .saveRDSCall p => some p
    | _ => none)

/-! ## The LSTM text-generation notebook

The "Text Generation With LSTM Recurrent Neural Networks" notebook (the
second document inside the Linear-Algebra checkpoint file) builds

  `model.add(LSTM(256, ...)); model.add(Dropout(0.2));
   model.add(Dense(y.shape[1], activation='softmax'))`

and fits it with the library's checkpoint callback

  `filepath = "weights-improvement-{epoch:02d}-{loss:.4f}.hdf5"`
  `ModelCheckpoint(filepath, monitor='loss', verbose=1,
                   save_best_only=True, mode='min')`
  `model.fit(X, y, epochs=20, batch_size=128, callbacks=callbacks_list)`.

With `save_best_only=True` and `mode='min'`, the callback starts with a
best monitored loss of infinity and, at the end of each epoch, writes the
weights to the filepath (formatted with the 1-based epoch number and the
epoch's loss) only when the epoch's loss is strictly below the best so
far, updating the best.  The per-epoch losses are produced by the
library's optimizer, so they enter the embedding as an input list. -/

/-- A layer of the Keras sequential model the LSTM notebook builds. -/
inductive KerasLayer where
  | lstm (units : ℕ)
  | dropout (rate : ℚ)
  | dense (units : ℕ)
deriving DecidableEq, Repr

/-- Whether a layer is an LSTM layer. -/
def isLSTMLayer : KerasLayer → Bool
  | .lstm _ => true
  | _ => false

/-- The notebook's model: `LSTM(256)`, `Dropout(0.2)`, and a dense
softmax output over the `y.shape[1]` characters of the vocabulary. -/
def buildCharLSTM (vocab : ℕ) : List KerasLayer :=
  [KerasLayer.lstm 256, KerasLayer.dropout (0.2 : ℚ), KerasLayer.dense vocab]

/-- A natural number padded to at least two digits (Python's `{epoch:02d}`). -/
def pad2 (n : ℕ) : String :=
  if n < 10 then "0" ++ toString n else toString n

/-- A natural number left-padded to four digits (the fractional part of
a `{loss:.4f}` field). -/
def pad4 (n : ℕ) : String :=
  if n < 10 then "000" ++ toString n
  else if n < 100 then "00" ++ toString n
  else if n < 1000 then "0" ++ toString n
  else toString n

/-- A rational rendered with four decimal places, rounding to the nearest
fourth decimal (Python's `{loss:.4f}` on the loss value). -/
def loss4f (q : ℚ) : String :=
  let n : ℤ := round (|q| * 10000)
  (if q < 0 then "-" else "")
    ++ toString (n / 10000) ++ "." ++ pad4 (n % 10000).toNat

/-- The checkpoint callback's filepath
`"weights-improvement-{epoch:02d}-{loss:.4f}.hdf5"`, formatted with the
1-based epoch number and that epoch's monitored loss. -/
def checkpointPath (epoch : ℕ) (loss : ℚ) : String :=
  "weights-improvement-" ++ pad2 epoch ++ "-" ++ loss4f loss ++ ".hdf5"

/-- The observable outcome of `model.fit` with the checkpoint callback:
the filesystem after the run and the list of paths the callback wrote. -/
structure FitResult where
  fs : FileSys (List KerasLayer)
  written : List String

/-- The callback's `save_best_only=True, mode='min'` test: the epoch's
monitored loss improves when it is strictly below the best so far, where
`none` is the callback's initial best of infinity. -/
def improves (best : Option ℚ) (loss : ℚ) : Bool :=
  match best with
  | none => true
  | some b => decide (loss < b)

/-- The epoch loop of `model.fit` with the `ModelCheckpoint` callback
(`monitor='loss'`, `save_best_only=True`, `mode='min'`): at the end of
each epoch, if the epoch's loss improves on the best so far, write the
model's weights to the checkpoint path for that epoch and loss and
update the best; otherwise write nothing. -/
def fitLoop (model : List KerasLayer) :
    ℕ → Option ℚ → List ℚ → FitResult → FitResult
  | _, _, [], r => r
  | epoch, best, loss :: rest, r =>
    if improves best loss then
      fitLoop model (epoch + 1) (some loss) rest
        ⟨⟨fun p => if p = checkpointPath epoch loss then some model
                   else r.fs.disk p⟩,
         checkpointPath epoch loss :: r.written⟩
    else
      fitLoop model (epoch + 1) best rest r

/-- `model.fit(X, y, epochs, ..., callbacks=[checkpoint])`: run the epoch
loop over the losses the optimizer produces, starting at epoch 1 with no
best loss recorded yet. -/
def fitWithCheckpoints (model : List KerasLayer) (losses : List ℚ)
    (fs : FileSys (List KerasLayer)) : FitResult :=
  fitLoop model 1 none losses ⟨fs, []⟩

/-! ## Helper lemmas -/

lemma dot_comm (a b : List ℚ) : dot a b = dot b a := by
  unfold dot
  induction a generalizing b with
  | nil => cases b <;> simp [List.zipWith]
  | cons p ps ih =>
    cases b with
    | nil => simp [List.zipWith]
    | cons q qs => simp [List.zipWith, ih qs, mul_comm]

lemma dot_centered (x y : List ℚ) :
    dot (centered x) (centered y)
      = (List.zipWith (fun a b => (a - mean x) * (b - mean y)) x y).sum := by
  unfold dot centered
  rw [List.zipWith_map_left, List.zipWith_map_right]

lemma cov_m01_eq_m10 (x y : List ℚ) : (cov x y).m01 = (cov x y).m10 := by
  simp only [cov]
  rw [dot_comm (centered x) (centered y)]

lemma cov_m01_eq_sampleCov (x y : List ℚ) : (cov x y).m01 = sampleCov x y := by
  simp only [cov, sampleCov]
  rw [dot_centered]

lemma cov_m00_eq_sampleVar (x y : List ℚ) : (cov x y).m00 = sampleVar x := by
  simp only [cov, sampleVar, sampleCov]
  rw [dot_centered]

lemma cov_m11_eq_sampleVar (x y : List ℚ) (h : x.length = y.length) :
    (cov x y).m11 = sampleVar y := by
  simp only [cov, sampleVar, sampleCov]
  rw [dot_centered, h]

lemma length_rankdata (x : List ℚ) : (rankdata x).length = x.length := by
  simp [rankdata]

lemma fitLoop_written_mono (model : List KerasLayer) (losses : List ℚ) :
    ∀ (epoch : ℕ) (best : Option ℚ) (r : FitResult) (p : String),
      p ∈ r.written → p ∈ (fitLoop model epoch best losses r).written := by
  induction losses with
  | nil => intro epoch best r p hp; simpa [fitLoop] using hp
  | cons l rest ih =>
    intro epoch best r p hp
    rw [fitLoop]
    by_cases h : improves best l
    · simp only [h, if_true]
      exact ih _ _ _ _ (List.mem_cons_of_mem _ hp)
    · simp only [h, if_false]
      exact ih _ _ _ _ hp

lemma fitLoop_disk_of_written (model : List KerasLayer) (losses : List ℚ) :
    ∀ (epoch : ℕ) (best : Option ℚ) (r : FitResult),
      (∀ p ∈ r.written, r.fs.disk p = some model) →
      ∀ p ∈ (fitLoop model epoch best losses r).written,
        (fitLoop model epoch best losses r).fs.disk p = some model := by
  induction losses with
  | nil => intro epoch best r h; simpa [fitLoop] using h
  | cons l rest ih =>
    intro epoch best r h
    rw [fitLoop]
    by_cases hb : improves best l
    · simp only [hb, if_true]
      apply ih
      intro p hp
      rcases List.mem_cons.mp hp with hpe | hpm
      · simp [hpe]
      · by_cases hpp : p = checkpointPath epoch l
        · simp [hpp]
        · simpa [hpp] using h p hpm
    · simp only [hb, if_false]
      exact ih _ _ _ h

lemma fitLoop_written_shape (model : List KerasLayer) (losses : List ℚ) :
    ∀ (epoch : ℕ) (best : Option ℚ) (r : FitResult) (p : String),
      p ∈ (fitLoop model epoch best losses r).written →
      (∃ e lo, p = checkpointPath e lo) ∨ p ∈ r.written := by
  induction losses with
  | nil => intro epoch best r p hp; right; simpa [fitLoop] using hp
  | cons l rest ih =>
    intro epoch best r p hp
    rw [fitLoop] at hp
    by_cases hb : improves best l
    · simp only [hb, if_true] at hp
      rcases ih _ _ _ _ hp with h | h
      · exact Or.inl h
      · rcases List.mem_cons.mp h with hpe | hpm
        · exact Or.inl ⟨epoch, l, hpe⟩
        · exact Or.inr hpm
    · simp only [hb, if_false] at hp
      exact ih _ _ _ _ hp

lemma fitLoop_disk_frame (model : List KerasLayer) (losses : List ℚ) :
    ∀ (epoch : ℕ) (best : Option ℚ) (r : FitResult) (q : String),
      q ∉ (fitLoop model epoch best losses r).written →
      (fitLoop model epoch best losses r).fs.disk q = r.fs.disk q := by
  induction losses with
  | nil => intro epoch best r q _; simp [fitLoop]
  | cons l rest ih =>
    intro epoch best r q hq
    rw [fitLoop] at hq ⊢
    by_cases hb : improves best l
    · simp only [hb, if_true] at hq ⊢
      have hqp : q ≠ checkpointPath epoch l := by
        intro he
        exact hq
          (he ▸ fitLoop_written_mono model rest _ _ _ _ (List.mem_cons_self _ _))
      rw [ih _ _ _ _ hq]
      simp [hqp]
    · simp only [hb, if_false] at hq ⊢
      exact ih _ _ _ _ hq

/-! ## Claim theorems -/

/-- Claim C1: for equal-length rational vectors x and y, the matrix returned by
the notebook's `cov(x, y)` call is symmetric, its off-diagonal entries are
the pairwise sample covariance of x and y, and its diagonal entries are
the sample variances of x and of y. -/
theorem cov_matrix_symmetric_pairwise (x y : List ℚ) (h : x.length = y.length) :
    (cov x y).m01 = (cov x y).m10 ∧
    (cov x y).m01 = sampleCov x y ∧
    (cov x y).m00 = sampleVar x ∧
    (cov x y).m11 = sampleVar y :=
  ⟨cov_m01_eq_m10 x y, cov_m01_eq_sampleCov x y,
   cov_m00_eq_sampleVar x y, cov_m11_eq_sampleVar x y h⟩

/-- Witness for C1 at the notebook's vectors x = [1,…,9], y = [9,…,1]. -/
theorem cov_matrix_symmetric_pairwise_witness :
    xVec.length = yVec.length ∧
    ((cov xVec yVec).m01 = (cov xVec yVec).m10 ∧
     (cov xVec yVec).m01 = sampleCov xVec yVec ∧
     (cov xVec yVec).m00 = sampleVar xVec ∧
     (cov xVec yVec).m11 = sampleVar yVec) :=
  ⟨rfl, cov_matrix_symmetric_pairwise xVec yVec rfl⟩

/-- Claim C10: on the notebook's reversed vectors the computations are exact in
rational arithmetic and match the recorded outputs: `cov(x, y)` is exactly
[[7.5, -7.5], [-7.5, 7.5]] and `corrcoef(x, y)` is exactly
[[1, -1], [-1, 1]]. -/
theorem cov_corrcoef_exact_on_reversed_vectors :
    cov xVec yVec = ⟨15/2, -15/2, -15/2, 15/2⟩ ∧
    corrcoef xVec yVec = ⟨1, -1, -1, 1⟩ := by
  have hc : cov xVec yVec = ⟨15/2, -15/2, -15/2, 15/2⟩ := by
    simp only [cov, dot, centered, mean, xVec, yVec, Matrix2.mk.injEq,
      List.zipWith, List.map, List.sum_cons, List.sum_nil, List.length]
    norm_num
  refine ⟨hc, ?_⟩
  simp only [corrcoef, hc]
  simp only [Matrix2.mk.injEq]
  rw [Rat.sqrt_eq (15/2 : ℚ)]
  rw [abs_of_pos (by norm_num : (0 : ℚ) < 15/2)]
  norm_num

/-- Claim C3: the notebook's `spearmanr` call (computed from the covariance
matrix of the ranked samples) equals the Pearson correlation coefficient
of the rank-transformed samples, for every pair of equal-length samples. -/
theorem spearmanr_eq_pearson_on_ranks (x y : List ℚ) (h : x.length = y.length) :
    spearmanr x y = pearsonr (rankdata x) (rankdata y) := by
  have hlen : (rankdata x).length = (rankdata y).length := by
    rw [length_rankdata, length_rankdata, h]
  simp only [spearmanr, pearsonr]
  rw [cov_m01_eq_sampleCov, cov_m00_eq_sampleVar, cov_m11_eq_sampleVar _ _ hlen]

/-- Witness for C3 at a concrete pair of samples of length 3. -/
theorem spearmanr_eq_pearson_on_ranks_witness :
    ([(1 : ℚ), 2, 3].length = [(2 : ℚ), 1, 3].length) ∧
    spearmanr [(1 : ℚ), 2, 3] [(2 : ℚ), 1, 3]
      = pearsonr (rankdata [(1 : ℚ), 2, 3]) (rankdata [(2 : ℚ), 1, 3]) :=
  ⟨rfl, spearmanr_eq_pearson_on_ranks [(1 : ℚ), 2, 3] [(2 : ℚ), 1, 3] rfl⟩

/-- Claim C2: `saveRDS` to "./final_model.rds" followed by `readRDS` is a round
trip: the loaded `super_model` is the saved `final_model`, and the
predictions it produces on the validation data are exactly the ones the
in-memory `final_model` would produce. -/
theorem saveRDS_readRDS_round_trip {Model Data Pred : Type}
    (predict : Model → Data → Pred) (finalModel : Model) (validation : Data)
    (fs0 : FileSys Model) :
    (saveLoadChunk predict finalModel validation fs0).superModel = some finalModel ∧
    (saveLoadChunk predict finalModel validation fs0).finalPredictions
      = some (predict finalModel validation) := by
  constructor <;> simp [saveLoadChunk, saveRDS, readRDS]

/-- Claim C4: when the two samples passed to the correlation calls have
mismatched lengths, the library's error reaches the end of the script
unchanged: the complete examples (which contain no handler and no input
validation of their own) terminate with exactly the library's error. -/
theorem library_error_propagates_unchanged (d1 d2 : List ℚ)
    (h : d1.length ≠ d2.length) :
    runSpearmanExample d1 d2
      = Except.error (LibError.mismatchedLengths "spearmanr") ∧
    runKendallExample d1 d2
      = Except.error (LibError.mismatchedLengths "kendalltau") := by
  constructor <;>
    simp [runSpearmanExample, runKendallExample, spearmanrCall, kendalltauCall,
      h, Except.bind]

/-- Witness for C4 at samples of lengths 2 and 1. -/
theorem library_error_propagates_unchanged_witness :
    ([(1 : ℚ), 2].length ≠ [(1 : ℚ)].length) ∧
    (runSpearmanExample [(1 : ℚ), 2] [(1 : ℚ)]
       = Except.error (LibError.mismatchedLengths "spearmanr") ∧
     runKendallExample [(1 : ℚ), 2] [(1 : ℚ)]
       = Except.error (LibError.mismatchedLengths "kendalltau")) :=
  ⟨by decide, library_error_propagates_unchanged [(1 : ℚ), 2] [(1 : ℚ)] (by decide)⟩

/-- Claim C5 counterexample: executing the save/load chunk does create on-disk
state: starting from the empty filesystem, the run leaves a file at
"./final_model.rds" where there was none, and the chunk's trace contains
a write. -/
theorem save_chunk_creates_disk_state :
    (saveLoadChunk (fun (m : ℕ) (d : ℕ) => m + d) 7 0 (emptyFS : FileSys ℕ)).fs.disk
        "./final_model.rds" = some 7 ∧
    (emptyFS : FileSys ℕ).disk "./final_model.rds" = none ∧
    writesOf rChunk3 ≠ [] := by
  refine ⟨?_, rfl, by decide⟩
  simp [saveLoadChunk, saveRDS, emptyFS]

/-- Claim C5 amended: the scripts' data lives in memory and executing
them creates no on-disk state except the model file "./final_model.rds"
written by the R save/load chunk via saveRDS and the
weights-improvement-*.hdf5 checkpoint files written by the LSTM
notebook's checkpoint callback: the save/load chunk leaves every other
path untouched, the traces of the other R chunks contain no write, and
every path the LSTM fit writes is a checkpoint path while all other
paths are untouched by it. -/
theorem scripts_write_only_model_and_checkpoint_files {Model Data Pred : Type}
    (predict : Model → Data → Pred) (finalModel : Model) (validation : Data)
    (fs0 : FileSys Model) (p : String) (hp : p ≠ "./final_model.rds")
    (model : List KerasLayer) (losses : List ℚ)
    (fsL : FileSys (List KerasLayer)) :
    (saveLoadChunk predict finalModel validation fs0).fs.disk p = fs0.disk p ∧
    writesOf rChunk1 = [] ∧
    writesOf rChunk2 = [] ∧
    writesOf rChunk3 = ["./final_model.rds"] ∧
    (∀ q ∈ (fitWithCheckpoints model losses fsL).written,
      ∃ e lo, q = checkpointPath e lo) ∧
    (∀ q, q ∉ (fitWithCheckpoints model losses fsL).written →
      (fitWithCheckpoints model losses fsL).fs.disk q = fsL.disk q) := by
  refine ⟨?_, by decide, by decide, by decide, ?_, ?_⟩
  · simp [saveLoadChunk, saveRDS, hp]
  · intro q hq
    rcases fitLoop_written_shape model losses _ _ _ _ hq with h | h
    · exact h
    · simp at h
  · intro q hq
    exact fitLoop_disk_frame model losses _ _ _ _ hq

/-- Witness for the amended C5 at the path "./other.txt", the notebook's
47-character vocabulary and a one-epoch loss sequence. -/
theorem scripts_write_only_model_and_checkpoint_files_witness :
    ("./other.txt" ≠ "./final_model.rds") ∧
    ((saveLoadChunk (fun (m : ℕ) (d : ℕ) => m + d) 7 0 (emptyFS : FileSys ℕ)).fs.disk
        "./other.txt" = (emptyFS : FileSys ℕ).disk "./other.txt" ∧
     writesOf rChunk1 = [] ∧
     writesOf rChunk2 = [] ∧
     writesOf rChunk3 = ["./final_model.rds"] ∧
     (∀ q ∈ (fitWithCheckpoints (buildCharLSTM 47) [(3 : ℚ)] emptyFS).written,
       ∃ e lo, q = checkpointPath e lo) ∧
     (∀ q, q ∉ (fitWithCheckpoints (buildCharLSTM 47) [(3 : ℚ)] emptyFS).written →
       (fitWithCheckpoints (buildCharLSTM 47) [(3 : ℚ)] emptyFS).fs.disk q
         = (emptyFS : FileSys (List KerasLayer)).disk q)) :=
  ⟨by decide,
   scripts_write_only_model_and_checkpoint_files (fun (m : ℕ) (d : ℕ) => m + d)
     7 0 (emptyFS : FileSys ℕ) "./other.txt" (by decide)
     (buildCharLSTM 47) [(3 : ℚ)] emptyFS⟩

/-- Claim C6: each complete example re-seeds the generator with seed(1) before
generating its data, so its data and its computed coefficients do not
depend on the generator state that precedes the script: two executions
from any two prior states produce identical data1, data2 and identical
coefficients. -/
theorem seeded_examples_deterministic {S : Type} (g : RNG S) (s s' : S) :
    exampleData g s = exampleData g s' ∧
    spearmanExampleCoef g s = spearmanExampleCoef g s' ∧
    kendallExampleCoef g s = kendallExampleCoef g s' :=
  ⟨rfl, rfl, rfl⟩

/-- Claim C7: the LSTM notebook builds a model containing an LSTM layer,
and fitting it with the library's checkpoint callback for at least one
epoch emits checkpoint files: the first epoch always improves on the
callback's initial best of infinity, so its checkpoint path is written,
and every checkpoint file written by the run holds the model's weights
on the final disk. -/
theorem lstm_notebook_emits_checkpoints (vocab : ℕ) (l : ℚ)
    (rest : List ℚ) (fs : FileSys (List KerasLayer)) :
    (buildCharLSTM vocab).any isLSTMLayer = true ∧
    checkpointPath 1 l ∈ (fitWithCheckpoints (buildCharLSTM vocab) (l :: rest) fs).written ∧
    ∀ p ∈ (fitWithCheckpoints (buildCharLSTM vocab) (l :: rest) fs).written,
      (fitWithCheckpoints (buildCharLSTM vocab) (l :: rest) fs).fs.disk p
        = some (buildCharLSTM vocab) := by
  refine ⟨by simp [buildCharLSTM, isLSTMLayer], ?_, ?_⟩
  · unfold fitWithCheckpoints
    rw [fitLoop]
    simp only [improves, if_true]
    exact fitLoop_written_mono (buildCharLSTM vocab) rest _ _ _ _
      (List.mem_cons_self _ _)
  · apply fitLoop_disk_of_written
    intro p hp
    simp at hp

/-- Claim C8 counterexample: repository code does configure parallel execution:
the save/load chunk's trace contains the call registerDoMC(cores=8),
which registers an 8-core backend. -/
theorem chunk3_configures_parallelism :
    rChunk3.any isParallelConfig = true := by decide

/-- Claim C8 amended: no chunk implements concurrency or scheduling logic of
its own — every traced call is a delegation to an external library — and
the only parallelism-related call in the repository is the single
registerDoMC(cores=8) registration of the doMC library's multicore
backend in the save/load chunk. -/
theorem parallelism_limited_to_doMC_registration :
    rChunks.map (fun s => s.filter isParallelConfig)
      = [[], [], [RCall.registerDoMC 8]] := by decide

/-- Claim C9: whatever values in [0, 1) the seeded uniform generator yields,
the test data construction data1 = rand·20, data2 = data1 + rand·10
satisfies, at every index, 0 ≤ data1[i] < 20 and
0 ≤ data2[i] - data1[i] < 10, so data2 pointwise dominates data1. -/
theorem test_data_pointwise_invariant (u1 u2 : List ℚ)
    (hlen : u1.length = u2.length)
    (h1 : ∀ v ∈ u1, 0 ≤ v ∧ v < 1) (h2 : ∀ v ∈ u2, 0 ≤ v ∧ v < 1)
    (i : ℕ) (hi : i < (testData1 u1).length) :
    0 ≤ (testData1 u1).getD i 0 ∧ (testData1 u1).getD i 0 < 20 ∧
    0 ≤ (testData2 (testData1 u1) u2).getD i 0 - (testData1 u1).getD i 0 ∧
    (testData2 (testData1 u1) u2).getD i 0 - (testData1 u1).getD i 0 < 10 := by
  have hiu1 : i < u1.length := by simpa [testData1] using hi
  have hiu2 : i < u2.length := hlen ▸ hiu1
  have hi2 : i < (testData2 (testData1 u1) u2).length := by
    simp [testData2, testData1, List.length_zipWith]
    omega
  have ha := h1 (u1.get ⟨i, hiu1⟩) (List.getElem_mem hiu1)
  have hb := h2 (u2.get ⟨i, hiu2⟩) (List.getElem_mem hiu2)
  have hd1 : (testData1 u1).getD i 0 = u1.get ⟨i, hiu1⟩ * 20 := by
    rw [List.getD_eq_getElem _ _ hi]
    simp [testData1]
  have hd2 : (testData2 (testData1 u1) u2).getD i 0
      = u1.get ⟨i, hiu1⟩ * 20 + u2.get ⟨i, hiu2⟩ * 10 := by
    rw [List.getD_eq_getElem _ _ hi2]
    simp [testData2, testData1, List.getElem_zipWith]
  rw [hd1, hd2]
  obtain ⟨ha0, ha1⟩ := ha
  obtain ⟨hb0, hb1⟩ := hb
  refine ⟨by nlinarith, by nlinarith, by nlinarith, by nlinarith⟩

/-- Witness for C9 at u1 = [1/2], u2 = [1/3], index 0. -/
theorem test_data_pointwise_invariant_witness :
    (([(1 : ℚ)/2].length = [(1 : ℚ)/3].length) ∧
     (∀ v ∈ [(1 : ℚ)/2], 0 ≤ v ∧ v < 1) ∧
     (∀ v ∈ [(1 : ℚ)/3], 0 ≤ v ∧ v < 1) ∧
     0 < (testData1 [(1 : ℚ)/2]).length) ∧
    (0 ≤ (testData1 [(1 : ℚ)/2]).getD 0 0 ∧
     (testData1 [(1 : ℚ)/2]).getD 0 0 < 20 ∧
     0 ≤ (testData2 (testData1 [(1 : ℚ)/2]) [(1 : ℚ)/3]).getD 0 0
        - (testData1 [(1 : ℚ)/2]).getD 0 0 ∧
     (testData2 (testData1 [(1 : ℚ)/2]) [(1 : ℚ)/3]).getD 0 0
        - (testData1 [(1 : ℚ)/2]).getD 0 0 < 10) :=
  ⟨⟨rfl, by norm_num, by norm_num, by simp [testData1]⟩,
   test_data_pointwise_invariant [(1 : ℚ)/2] [(1 : ℚ)/3] rfl
     (by norm_num) (by norm_num) 0 (by simp [testData1])⟩

end AppliedML
